import Mathlib

/-!
Verification development for the node-pool provisioner
(`provisioner/node_pools.go` of the cluster-lifecycle-manager).

The Go source is shallowly embedded: pure computations become Lean
functions, calls into external collaborators (CloudFormation stack
primitive, node-pool scaling primitive, S3, filesystem, pricing table)
become explicit function parameters or explicit state, and error-returning
Go functions become `Except String`-valued Lean functions.
-/

namespace CLM

/-- `api.NodePool`: the fields read by `node_pools.go`. -/
structure NodePool where
  Name : String
  Profile : String
  InstanceType : String
  DiscountStrategy : String
deriving DecidableEq, Repr

/-- `api.Cluster`: the fields read by `node_pools.go`. -/
structure Cluster where
  ID : String
  Region : String
  NodePools : List NodePool
deriving DecidableEq, Repr

/-- A CloudFormation stack tag (`cloudformation.Tag`). -/
structure Tag where
  Key : String
  Value : String
deriving DecidableEq, Repr

/-- A CloudFormation stack as read by the reconciler: name and tag set. -/
structure Stack where
  StackName : String
  Tags : List Tag
deriving DecidableEq, Repr

/-- Constant from `node_pools.go`. -/
def nodePoolTagKeyLegacy : String := "NodePool"

/-- Constant from `node_pools.go`. -/
def nodePoolTagKey : String := "kubernetes.io/node-pool"

/-- Constant from `node_pools.go`. -/
def nodePoolRoleTagKey : String := "kubernetes.io/role/node-pool"

/-- Constant from `node_pools.go`. -/
def nodePoolProfileTagKey : String := "kubernetes.io/node-pool/profile"

/-- Modelled from the spec: the cluster-ownership tag key prefix
`kubernetes.io/cluster/` (constant `tagNameKubernetesClusterPrefix`
defined outside this file's source). -/
def tagNameKubernetesClusterPrefix : String := "kubernetes.io/cluster/"

/-- Modelled from the spec: the ownership tag value `owned`
(constant `resourceLifecycleOwned` defined outside this file's source). -/
def resourceLifecycleOwned : String := "owned"

/-- Modelled from the spec: the discount-strategy constant for the `None`
variant (defined outside this file's source; the source only compares the
pool's `DiscountStrategy` string against it). -/
def discountStrategyNone : String := "none"

/-- Modelled from the spec: the discount-strategy constant for the
`SpotMaxPrice` variant (defined outside this file's source). -/
def discountStrategySpotMaxPrice : String := "spot_max_price"

/-- The five-element tag list built in `provisionNodePool`
(`node_pools.go` lines 164-185).  Note the fifth entry: the source sets
the value of `nodePoolProfileTagKey` to `nodePool.Name`. -/
def nodePoolTags (clusterID : String) (nodePool : NodePool) : List Tag :=
  [ { Key := tagNameKubernetesClusterPrefix ++ clusterID, Value := resourceLifecycleOwned },
    { Key := nodePoolRoleTagKey, Value := "true" },
    { Key := nodePoolTagKey, Value := nodePool.Name },
    { Key := nodePoolTagKeyLegacy, Value := nodePool.Name },
    { Key := nodePoolProfileTagKey, Value := nodePool.Name } ]

/-- The body of the tag loop in `nodePoolStackToNodePool` (`node_pools.go`
lines 345-353): take the name from `nodePoolTagKey` and the profile from
`nodePoolProfileTagKey`; other tags leave the pool unchanged. -/
def applyNodePoolTag (nodePool : NodePool) (tag : Tag) : NodePool :=
  let nodePool :=
    if tag.Key = nodePoolTagKey then { nodePool with Name := tag.Value } else nodePool
  if tag.Key = nodePoolProfileTagKey then { nodePool with Profile := tag.Value } else nodePool

/-- `nodePoolStackToNodePool` (`node_pools.go` lines 342-355): start from a
zero-valued `api.NodePool` and scan the stack's tags. -/
def nodePoolStackToNodePool (stack : Stack) : NodePool :=
  stack.Tags.foldl applyNodePoolTag
    { Name := "", Profile := "", InstanceType := "", DiscountStrategy := "" }

/-- `inNodePoolList` (`node_pools.go` lines 333-340): membership by name only. -/
def inNodePoolList (nodePool : NodePool) (nodePools : List NodePool) : Bool :=
  nodePools.any (fun np => np.Name == nodePool.Name)

/-- `orphanedNodePoolStacks` (`node_pools.go` lines 322-331): keep exactly
the stacks whose decoded node pool is not in the desired list. -/
def orphanedNodePoolStacks (nodePoolStacks : List Stack) (nodePools : List NodePool) :
    List Stack :=
  nodePoolStacks.filter (fun stack => !inNodePoolList (nodePoolStackToNodePool stack) nodePools)

/-- An override-parameters mapping (`map[string]string` in Go), embedded as
an association list with unique keys. -/
abbrev Values := List (String × String)

/-- Lookup in a `Values` mapping. -/
def Values.get : Values → String → Option String
  | [], _ => none
  | (k, v) :: rest, key => if k = key then some v else Values.get rest key

/-- Insert (or overwrite) a key in a `Values` mapping, the embedding of a
Go map assignment `values[key] = val`. -/
def Values.insert (vals : Values) (key val : String) : Values :=
  (key, val) :: vals.filter (fun p => p.1 ≠ key)

/-- An observable invocation of an external primitive during `Reconcile`.
`scalePoolEv stack` records the call
`ScalePool(nodePoolStackToNodePool stack, 0)` made while processing
`stack`, and `deleteStackEv stack` records the call
`DeleteStack(stack.StackName)`. -/
inductive Event where
  | scalePoolEv (stack : Stack)
  | deleteStackEv (stack : Stack)
deriving DecidableEq, Repr

/-- The orphan-decommission loop of `Reconcile` (`node_pools.go` lines
223-237), instrumented with the trace of external invocations.  For each
orphaned stack in listing order: call `ScalePool(pool, 0)`; if it fails,
return its error at once; otherwise call `DeleteStack(stack.StackName)`;
if that fails, return its error at once; otherwise continue with the
remaining orphans. -/
def reconcileOrphans (scalePool : NodePool → Except String Unit)
    (deleteStack : String → Except String Unit) :
    List Stack → List Event × Except String Unit
  | [] => ([], Except.ok ())
  | stack :: rest =>
    match scalePool (nodePoolStackToNodePool stack) with
    | Except.error e => ([Event.scalePoolEv stack], Except.error e)
    | Except.ok _ =>
      match deleteStack stack.StackName with
      | Except.error e =>
        ([Event.scalePoolEv stack, Event.deleteStackEv stack], Except.error e)
      | Except.ok _ =>
        let r := reconcileOrphans scalePool deleteStack rest
        (Event.scalePoolEv stack :: Event.deleteStackEv stack :: r.1, r.2)

/-- The tag filter `Reconcile` passes to `ListStacks`
(`node_pools.go` lines 206-209). -/
def reconcileTags (cluster : Cluster) : Values :=
  [(tagNameKubernetesClusterPrefix ++ cluster.ID, resourceLifecycleOwned),
   (nodePoolRoleTagKey, "true")]

/-- `Reconcile` (`node_pools.go` lines 204-240): list the stacks carrying
the cluster-ownership and node-pool role tags (the listing itself is the
external stack primitive, passed as `listStacks`), compute the orphaned
stacks, and decommission them in order. -/
def Reconcile (listStacks : Values → Except String (List Stack))
    (scalePool : NodePool → Except String Unit)
    (deleteStack : String → Except String Unit)
    (cluster : Cluster) : List Event × Except String Unit :=
  match listStacks (reconcileTags cluster) with
  | Except.error e => ([], Except.error e)
  | Except.ok nodePoolStacks =>
    reconcileOrphans scalePool deleteStack
      (orphanedNodePoolStacks nodePoolStacks cluster.NodePools)

/-- Go `strings.Join`: concatenate the elements with the separator between
consecutive elements. -/
def stringsJoin (sep : String) : List String → String
  | [] => ""
  | [x] => x
  | x :: y :: rest => x ++ sep ++ stringsJoin sep (y :: rest)

/-- The error wrapping done in `Provision`'s per-pool goroutine
(`node_pools.go` lines 110-114): a failed pool's error is prefixed with the
pool's name; a `none` outcome (success) is forwarded unchanged. -/
def provisionTaskError (nodePool : NodePool) (err : Option String) : Option String :=
  err.map (fun e => "failed to provision node pool " ++ nodePool.Name ++ ": " ++ e)

/-- `Provision` (`node_pools.go` lines 102-131): one task is launched per
target node pool and exactly one result per task is read back from the
error channel.  `outcome` gives each pool's independent `provisionNodePool`
result (`none` for success, `some reason` for failure) and `arrival` is the
order in which the channel delivers the results — any permutation of the
launched tasks, since goroutine completion order is not determined.  The
non-`nil` results are collected in arrival order and joined with `", "`
into a single error. -/
def Provision (outcome : NodePool → Option String) (arrival : List NodePool) :
    Except String Unit :=
  match arrival.filterMap (fun p => provisionTaskError p (outcome p)) with
  | [] => Except.ok ()
  | e :: rest => Except.error (stringsJoin ", " (e :: rest))

/-- The pricing phase of `provisionNodePool` (`node_pools.go` lines
134-154), acting on the `values` map the caller passed in.  The first
component of the result is the caller's map after the call — the Go code
mutates the shared map in place, first setting `spot_price` to the empty
string and, for `SpotMaxPrice`, overwriting it with the regional on-demand
price.  The second component is `()` on success or the returned error.
`instanceInfo` is the static pricing table (`awsExt.InstanceInfo()`),
mapping an instance type to its per-region on-demand prices. -/
def provisionNodePoolValues (instanceInfo : String → Option Values) (region : String)
    (nodePool : NodePool) (values : Values) : Values × Except String Unit :=
  let values := Values.insert values "spot_price" ""
  if nodePool.DiscountStrategy = discountStrategyNone then
    (values, Except.ok ())
  else if nodePool.DiscountStrategy = discountStrategySpotMaxPrice then
    match instanceInfo nodePool.InstanceType with
    | none => (values, Except.error ("unknown instance type " ++ nodePool.InstanceType))
    | some pricing =>
      match Values.get pricing region with
      | none =>
        (values, Except.error ("no price data for region " ++ region ++
          ", instance type " ++ nodePool.InstanceType))
      | some onDemandPrice =>
        (Values.insert values "spot_price" onDemandPrice, Except.ok ())
  else
    (values, Except.error ("unsupported node pool discount_strategy " ++
      nodePool.DiscountStrategy))

/-- Constant from `node_pools.go`: the user-data template file name. -/
def userDataFileName : String := "userdata.clc.yaml"

/-- Constant from `node_pools.go`: the stack template file name. -/
def stackFileName : String := "stack.yaml"

/-- Go `path.Join` restricted to two already-clean components. -/
def pathJoin (a b : String) : String :=
  if a = "" then b else if b = "" then a else a ++ "/" ++ b

/-- The filesystem as seen through `os.Stat` and `ioutil.ReadFile`:
`stat` returns `none` when the path does not exist and otherwise whether
the path is a directory; `read` returns the file contents when the file is
readable. -/
structure FileSystem where
  stat : String → Option Bool
  read : String → Option String

/-- A node of a parsed `text/template` document: literal text or a
reference to a key of the context. -/
inductive TemplateNode where
  | lit (s : String)
  | keyRef (k : String)
deriving DecidableEq, Repr

/-- Execution of a parsed template against a string-map context with
`Option("missingkey=error")` (`node_pools.go` line 308): substitution is by
strict key lookup, and referencing an absent key aborts rendering with an
error. -/
def executeTemplate : List TemplateNode → Values → Except String String
  | [], _ => Except.ok ""
  | TemplateNode.lit s :: rest, data =>
    (executeTemplate rest data).map (fun out => s ++ out)
  | TemplateNode.keyRef k :: rest, data =>
    match Values.get data k with
    | none => Except.error ("map has no entry for key " ++ k)
    | some v => (executeTemplate rest data).map (fun out => v ++ out)

/-- `renderTemplate` (`node_pools.go` lines 302-320): read the template
file, parse it (`parse` stands for the `text/template` parser) and execute
it, with the strict missing-key option, against the given context. -/
def renderTemplate (fs : FileSystem)
    (parse : String → Except String (List TemplateNode))
    (templateFile : String) (data : Values) : Except String String :=
  match fs.read templateFile with
  | none => Except.error ("open " ++ templateFile ++ ": no such file or directory")
  | some content =>
    match parse content with
    | Except.error e => Except.error e
    | Except.ok nodes => executeTemplate nodes data

/-- `generateNodePoolStackTemplate` (`node_pools.go` lines 66-99): resolve
the profile directory under the configured base directory; a missing path
fails with the `os.Stat` error, a non-directory path with a configuration
error naming the profile.  Otherwise the user data is prepared
(`prepareUserData`, covering rendering, conversion and upload) and the
stack template in the profile directory is rendered (`renderStackTemplate`,
the final `renderTemplate` call with the stack parameters). -/
def generateNodePoolStackTemplate (fs : FileSystem)
    (prepareUserData : String → Except String String)
    (renderStackTemplate : String → String → Except String String)
    (cfgBaseDir : String) (nodePool : NodePool) : Except String String :=
  let nodePoolProfilesPath := pathJoin cfgBaseDir nodePool.Profile
  match fs.stat nodePoolProfilesPath with
  | none =>
    Except.error ("stat " ++ nodePoolProfilesPath ++ ": no such file or directory")
  | some isDir =>
    if isDir then
      match prepareUserData (pathJoin nodePoolProfilesPath userDataFileName) with
      | Except.error e => Except.error e
      | Except.ok renderedUserData =>
        renderStackTemplate (pathJoin nodePoolProfilesPath stackFileName) renderedUserData
    else
      Except.error ("failed to find configuration for node pool profile '" ++
        nodePool.Profile ++ "'")

/-- Object storage state: the existing buckets and the stored objects,
keyed by bucket and object name. -/
structure S3State where
  buckets : List String
  objects : List ((String × String) × List Nat)
deriving DecidableEq, Repr

/-- Modelled from the spec: `createS3Bucket` (the awsAdapter primitive
called by `uploadUserDataToS3`, defined outside this file's source) creates
the bucket if absent and is idempotent — no error when it already exists. -/
def createS3Bucket (s : S3State) (bucketName : String) : S3State :=
  if bucketName ∈ s.buckets then s else { s with buckets := bucketName :: s.buckets }

/-- Modelled from the spec: the S3 `Upload` primitive stores the body under
(bucket, key) with overwrite semantics — re-uploading an existing key
replaces the single logical object under that key and does not fail. -/
def s3Upload (s : S3State) (bucketName objectName : String) (body : List Nat) : S3State :=
  { s with
    objects := ((bucketName, objectName), body) ::
      s.objects.filter (fun o => o.1 ≠ (bucketName, objectName)) }

/-- `uploadUserDataToS3` (`node_pools.go` lines 271-299): ensure the bucket
exists, name the object by the hex SHA-512 digest of the payload with the
`.userdata` suffix, upload the payload, and return the canonical
`s3://bucket/object` URI.  `sha512hex` stands for the external digest
computation (`crypto/sha512` with `hex.EncodeToString`); the payload is a
byte list. -/
def uploadUserDataToS3 (sha512hex : List Nat → String) (userData : List Nat)
    (bucketName : String) (s : S3State) : S3State × String :=
  let s := createS3Bucket s bucketName
  let sha := sha512hex userData
  let objectName := sha ++ ".userdata"
  let s := s3Upload s bucketName objectName userData
  (s, "s3://" ++ bucketName ++ "/" ++ objectName)

/-- Example pricing table used to instantiate `pricing_resolution`:
`m5.large` has an on-demand price in `eu-central-1`. -/
def examplePricingTable : String → Option Values :=
  fun instanceType =>
    if instanceType = "m5.large" then some [("eu-central-1", "0.115")] else none

/-- Target pools used to instantiate `provision_failure_isolation`. -/
def examplePools : List NodePool :=
  [⟨"pool-1", "worker", "m5.large", "none"⟩,
   ⟨"pool-2", "worker", "m0.bogus", "spot_max_price"⟩,
   ⟨"pool-3", "worker", "m5.large", "none"⟩]

/-- Per-pool outcome used to instantiate `provision_failure_isolation`:
only `pool-2` fails. -/
def exampleOutcome : NodePool → Option String :=
  fun p => if p.Name = "pool-2" then some "unknown instance type m0.bogus" else none

/-- Desired pools for the reconciliation witnesses. -/
def exampleDesiredPools : List NodePool := [⟨"keep", "keep-profile", "", ""⟩]

/-- Cluster for the reconciliation witnesses. -/
def exampleCluster : Cluster := ⟨"c-1", "eu-central-1", exampleDesiredPools⟩

/-- A live stack for the retained pool `keep`. -/
def exampleKeepStack : Stack :=
  ⟨"nodepool-keep-c-1",
    [⟨nodePoolTagKey, "keep"⟩, ⟨nodePoolProfileTagKey, "keep-profile"⟩]⟩

/-- A live stack whose decoded pool `dead` is no longer desired. -/
def exampleDeadStack : Stack :=
  ⟨"nodepool-dead-c-1",
    [⟨nodePoolTagKey, "dead"⟩, ⟨nodePoolProfileTagKey, "dead-profile"⟩]⟩

/-- A live stack carrying no name tag at all. -/
def exampleUnnamedStack : Stack :=
  ⟨"nodepool-x-c-1", [⟨nodePoolProfileTagKey, "x-profile"⟩]⟩

/-- Stack-listing primitive returning a fixed stack list. -/
def exampleListStacks (stks : List Stack) : Values → Except String (List Stack) :=
  fun _ => Except.ok stks

/-- Scaling primitive whose drain fails exactly for the pool named `dead`. -/
def exampleScalePoolFailDead : NodePool → Except String Unit :=
  fun np => if np.Name = "dead" then Except.error "drain failed" else Except.ok ()

/-- Scaling primitive that always succeeds. -/
def exampleScalePoolOk : NodePool → Except String Unit := fun _ => Except.ok ()

/-- Deletion primitive that always succeeds. -/
def exampleDeleteStackOk : String → Except String Unit := fun _ => Except.ok ()

/-- Membership characterisation of `orphanedNodePoolStacks`: a stack is
orphaned exactly when its decoded name is not among the desired names. -/
theorem mem_orphanedNodePoolStacks (stackList : List Stack) (pools : List NodePool)
    (stack : Stack) :
    stack ∈ orphanedNodePoolStacks stackList pools ↔
      stack ∈ stackList ∧
        ¬ (nodePoolStackToNodePool stack).Name ∈ pools.map NodePool.Name := by
  simp [orphanedNodePoolStacks, List.mem_filter, inNodePoolList, List.any_eq_true,
    List.mem_map]

/-- C1: the Tag Codec round-trip fails on the code.  For the concrete node
pool with name `worker` and profile `worker-profile`, decoding the tag set
produced when provisioning it yields profile `worker` (the pool's name),
not `worker-profile`: `provisionNodePool` writes `nodePool.Name` as the
value of the profile tag. -/
theorem tag_roundtrip_profile_bug :
    (nodePoolStackToNodePool
        { StackName := "s",
          Tags := nodePoolTags "cid" ⟨"worker", "worker-profile", "", ""⟩ }).Name = "worker" ∧
    (nodePoolStackToNodePool
        { StackName := "s",
          Tags := nodePoolTags "cid" ⟨"worker", "worker-profile", "", ""⟩ }).Profile = "worker" ∧
    (nodePoolStackToNodePool
        { StackName := "s",
          Tags := nodePoolTags "cid" ⟨"worker", "worker-profile", "", ""⟩ }).Profile ≠
      "worker-profile" := by
  refine ⟨rfl, rfl, ?_⟩
  decide

/-- `inNodePoolList` depends only on the pool names of the list. -/
theorem inNodePoolList_names (nodePool : NodePool) (pools pools' : List NodePool)
    (h : pools.map NodePool.Name = pools'.map NodePool.Name) :
    inNodePoolList nodePool pools = inNodePoolList nodePool pools' := by
  unfold inNodePoolList
  have : ∀ l : List NodePool,
      (l.any fun np => np.Name == nodePool.Name) =
        (l.map NodePool.Name).any fun nm => nm == nodePool.Name := by
    intro l
    induction l with
    | nil => rfl
    | cons x xs ih => simp [List.any, ih]
  rw [this pools, this pools', h]

/-- C6: a stack is orphaned exactly when the name recovered from its tags
is absent from the desired pool names; and the classification depends only
on the desired pools' names, never their profiles. -/
theorem orphan_detection_by_name (stackList : List Stack) (pools : List NodePool)
    (stack : Stack) :
    (stack ∈ orphanedNodePoolStacks stackList pools ↔
      stack ∈ stackList ∧
        ¬ (nodePoolStackToNodePool stack).Name ∈ pools.map NodePool.Name) ∧
    (∀ pools' : List NodePool, pools.map NodePool.Name = pools'.map NodePool.Name →
      orphanedNodePoolStacks stackList pools = orphanedNodePoolStacks stackList pools') := by
  constructor
  · exact mem_orphanedNodePoolStacks stackList pools stack
  · intro pools' h
    unfold orphanedNodePoolStacks
    apply List.filter_congr
    intro s _
    rw [inNodePoolList_names (nodePoolStackToNodePool s) pools pools' h]

/-- Evaluation of the decommission loop when the head orphan's drain fails. -/
theorem reconcileOrphans_cons_scale_fail (scalePool : NodePool → Except String Unit)
    (deleteStack : String → Except String Unit) (s : Stack) (rest : List Stack)
    (e : String) (h : scalePool (nodePoolStackToNodePool s) = Except.error e) :
    reconcileOrphans scalePool deleteStack (s :: rest) =
      ([Event.scalePoolEv s], Except.error e) := by
  rw [reconcileOrphans, h]

/-- Evaluation of the decommission loop when the head orphan drains but its
stack deletion fails. -/
theorem reconcileOrphans_cons_delete_fail (scalePool : NodePool → Except String Unit)
    (deleteStack : String → Except String Unit) (s : Stack) (rest : List Stack)
    (e : String) (h1 : scalePool (nodePoolStackToNodePool s) = Except.ok ())
    (h2 : deleteStack s.StackName = Except.error e) :
    reconcileOrphans scalePool deleteStack (s :: rest) =
      ([Event.scalePoolEv s, Event.deleteStackEv s], Except.error e) := by
  rw [reconcileOrphans, h1, h2]

/-- Evaluation of the decommission loop when the head orphan drains and
deletes successfully. -/
theorem reconcileOrphans_cons_ok (scalePool : NodePool → Except String Unit)
    (deleteStack : String → Except String Unit) (s : Stack) (rest : List Stack)
    (h1 : scalePool (nodePoolStackToNodePool s) = Except.ok ())
    (h2 : deleteStack s.StackName = Except.ok ()) :
    reconcileOrphans scalePool deleteStack (s :: rest) =
      (Event.scalePoolEv s :: Event.deleteStackEv s ::
          (reconcileOrphans scalePool deleteStack rest).1,
        (reconcileOrphans scalePool deleteStack rest).2) := by
  rw [reconcileOrphans, h1, h2]

/-- In the decommission loop, a `DeleteStack` call for a stack happens only
if `ScalePool` succeeded for that stack's decoded node pool. -/
theorem reconcileOrphans_delete_scale_ok (scalePool : NodePool → Except String Unit)
    (deleteStack : String → Except String Unit) (orphans : List Stack) (t : Stack)
    (ht : Event.deleteStackEv t ∈ (reconcileOrphans scalePool deleteStack orphans).1) :
    scalePool (nodePoolStackToNodePool t) = Except.ok () := by
  induction orphans with
  | nil => simp [reconcileOrphans] at ht
  | cons s rest ih =>
    cases hsc : scalePool (nodePoolStackToNodePool s) with
    | error e =>
      rw [reconcileOrphans_cons_scale_fail scalePool deleteStack s rest e hsc] at ht
      simp at ht
    | ok u =>
      cases u
      cases hdel : deleteStack s.StackName with
      | error e =>
        rw [reconcileOrphans_cons_delete_fail scalePool deleteStack s rest e hsc hdel] at ht
        simp only [List.mem_cons, List.not_mem_nil, or_false] at ht
        rcases ht with h | h
        · exact absurd h (by simp)
        · injection h with h3
          subst h3
          exact hsc
      | ok v =>
        cases v
        rw [reconcileOrphans_cons_ok scalePool deleteStack s rest hsc hdel] at ht
        simp only [List.mem_cons] at ht
        rcases ht with h | h | h
        · exact absurd h (by simp)
        · injection h with h3
          subst h3
          exact hsc
        · exact ih h

/-- If every orphan strictly before `s` drains and deletes successfully and
the drain of `s` fails, the loop never calls `DeleteStack` for `s` and
returns the drain error. -/
theorem reconcileOrphans_drain_fail (scalePool : NodePool → Except String Unit)
    (deleteStack : String → Except String Unit) (pre suf : List Stack) (s : Stack)
    (e : String)
    (hpre : ∀ t ∈ pre, scalePool (nodePoolStackToNodePool t) = Except.ok () ∧
        deleteStack t.StackName = Except.ok ())
    (hs : scalePool (nodePoolStackToNodePool s) = Except.error e) :
    ¬ Event.deleteStackEv s ∈ (reconcileOrphans scalePool deleteStack (pre ++ s :: suf)).1 ∧
    (reconcileOrphans scalePool deleteStack (pre ++ s :: suf)).2 = Except.error e := by
  induction pre with
  | nil =>
    simp only [List.nil_append]
    rw [reconcileOrphans_cons_scale_fail scalePool deleteStack s suf e hs]
    simp
  | cons t pre' ih =>
    obtain ⟨ht1, ht2⟩ := hpre t (by simp)
    have hrest := ih (fun t' h' => hpre t' (by simp [h']))
    simp only [List.cons_append]
    rw [reconcileOrphans_cons_ok scalePool deleteStack t (pre' ++ s :: suf) ht1 ht2]
    refine ⟨?_, hrest.2⟩
    intro hmem
    simp only [List.mem_cons] at hmem
    rcases hmem with h | h | h
    · exact absurd h (by simp)
    · injection h with h3
      rw [h3, ht1] at hs
      exact absurd hs (by simp)
    · exact hrest.1 h

/-- If every orphan drains and deletes successfully, the loop emits both
invocations for every orphan and returns success. -/
theorem reconcileOrphans_all_ok (scalePool : NodePool → Except String Unit)
    (deleteStack : String → Except String Unit) (orphans : List Stack)
    (h : ∀ t ∈ orphans, scalePool (nodePoolStackToNodePool t) = Except.ok () ∧
        deleteStack t.StackName = Except.ok ()) :
    (∀ t ∈ orphans,
      Event.scalePoolEv t ∈ (reconcileOrphans scalePool deleteStack orphans).1 ∧
      Event.deleteStackEv t ∈ (reconcileOrphans scalePool deleteStack orphans).1) ∧
    (reconcileOrphans scalePool deleteStack orphans).2 = Except.ok () := by
  induction orphans with
  | nil => simp [reconcileOrphans]
  | cons s rest ih =>
    obtain ⟨hs1, hs2⟩ := h s (by simp)
    have hrest := ih (fun t' h' => h t' (by simp [h']))
    rw [reconcileOrphans_cons_ok scalePool deleteStack s rest hs1 hs2]
    constructor
    · intro t htm
      rcases List.mem_cons.mp htm with heq | hm
      · subst heq; simp
      · have := hrest.1 t hm
        exact ⟨by simp [this.1], by simp [this.2]⟩
    · exact hrest.2

/-- Witness for `orphan_detection_by_name`: the stack tagged `dead` is
orphaned, the stack tagged `keep` is retained, and replacing the desired
pools' profiles leaves the orphan set unchanged. -/
theorem orphan_detection_by_name_witness :
    exampleDeadStack ∈
      orphanedNodePoolStacks [exampleKeepStack, exampleDeadStack] exampleDesiredPools ∧
    ¬ exampleKeepStack ∈
      orphanedNodePoolStacks [exampleKeepStack, exampleDeadStack] exampleDesiredPools ∧
    orphanedNodePoolStacks [exampleKeepStack, exampleDeadStack] exampleDesiredPools =
      orphanedNodePoolStacks [exampleKeepStack, exampleDeadStack]
        [⟨"keep", "another-profile", "m5.large", "none"⟩] := by
  refine ⟨?_, ?_, ?_⟩
  · exact (orphan_detection_by_name [exampleKeepStack, exampleDeadStack]
      exampleDesiredPools exampleDeadStack).1.mpr ⟨by decide, by decide⟩
  · intro hmem
    have h := (orphan_detection_by_name [exampleKeepStack, exampleDeadStack]
      exampleDesiredPools exampleKeepStack).1.mp hmem
    exact h.2 (by decide)
  · exact (orphan_detection_by_name [exampleKeepStack, exampleDeadStack]
      exampleDesiredPools exampleKeepStack).2
      [⟨"keep", "another-profile", "m5.large", "none"⟩] (by decide)

/-- C3: during `Reconcile`, `DeleteStack` is invoked for a stack only when
`ScalePool(pool, 0)` succeeded for that stack; and for the first orphan
whose drain fails, `DeleteStack` is never invoked and the drain error is
the error `Reconcile` returns. -/
theorem reconcile_drain_before_delete
    (listStacks : Values → Except String (List Stack))
    (scalePool : NodePool → Except String Unit)
    (deleteStack : String → Except String Unit)
    (cluster : Cluster) (stackList pre suf : List Stack) (s : Stack) (e : String)
    (hls : listStacks (reconcileTags cluster) = Except.ok stackList)
    (horph : orphanedNodePoolStacks stackList cluster.NodePools = pre ++ s :: suf)
    (hpre : ∀ t ∈ pre, scalePool (nodePoolStackToNodePool t) = Except.ok () ∧
        deleteStack t.StackName = Except.ok ())
    (hs : scalePool (nodePoolStackToNodePool s) = Except.error e) :
    (∀ t, Event.deleteStackEv t ∈ (Reconcile listStacks scalePool deleteStack cluster).1 →
        scalePool (nodePoolStackToNodePool t) = Except.ok ()) ∧
    ¬ Event.deleteStackEv s ∈ (Reconcile listStacks scalePool deleteStack cluster).1 ∧
    (Reconcile listStacks scalePool deleteStack cluster).2 = Except.error e := by
  have hR : Reconcile listStacks scalePool deleteStack cluster =
      reconcileOrphans scalePool deleteStack (pre ++ s :: suf) := by
    simp only [Reconcile, hls, horph]
  rw [hR]
  have hfail := reconcileOrphans_drain_fail scalePool deleteStack pre suf s e hpre hs
  exact ⟨fun t ht => reconcileOrphans_delete_scale_ok scalePool deleteStack _ t ht,
    hfail.1, hfail.2⟩

/-- The decoded name of a stack none of whose tags uses the name tag key is
the zero value, the empty string. -/
theorem nodePoolStackToNodePool_no_name_tag (stack : Stack)
    (h : ∀ tag ∈ stack.Tags, tag.Key ≠ nodePoolTagKey) :
    (nodePoolStackToNodePool stack).Name = "" := by
  unfold nodePoolStackToNodePool
  have : ∀ (tags : List Tag) (acc : NodePool),
      (∀ tag ∈ tags, tag.Key ≠ nodePoolTagKey) →
      (tags.foldl applyNodePoolTag acc).Name = acc.Name := by
    intro tags
    induction tags with
    | nil => intro acc _; rfl
    | cons t rest ih =>
      intro acc hacc
      have hne := hacc t (by simp)
      rw [List.foldl_cons, ih _ (fun tag hm => hacc tag (by simp [hm]))]
      unfold applyNodePoolTag
      simp only [hne, if_false]
      by_cases hp : t.Key = nodePoolProfileTagKey <;> simp [hp]
  exact this stack.Tags _ h

/-- C10: a live stack with no name tag decodes to the empty pool name;
when no desired pool is named by the empty string it is classified as
orphaned, and a reconciliation pass whose drains and deletions succeed
invokes both `ScalePool(pool, 0)` and `DeleteStack` for it. -/
theorem unnamed_stack_orphaned_and_decommissioned
    (listStacks : Values → Except String (List Stack))
    (scalePool : NodePool → Except String Unit)
    (deleteStack : String → Except String Unit)
    (cluster : Cluster) (stackList : List Stack) (stack : Stack)
    (hnotag : ∀ tag ∈ stack.Tags, tag.Key ≠ nodePoolTagKey)
    (hnames : ∀ p ∈ cluster.NodePools, p.Name ≠ "")
    (hls : listStacks (reconcileTags cluster) = Except.ok stackList)
    (hmem : stack ∈ stackList)
    (hok : ∀ t ∈ orphanedNodePoolStacks stackList cluster.NodePools,
        scalePool (nodePoolStackToNodePool t) = Except.ok () ∧
        deleteStack t.StackName = Except.ok ()) :
    (nodePoolStackToNodePool stack).Name = "" ∧
    stack ∈ orphanedNodePoolStacks stackList cluster.NodePools ∧
    Event.scalePoolEv stack ∈ (Reconcile listStacks scalePool deleteStack cluster).1 ∧
    Event.deleteStackEv stack ∈ (Reconcile listStacks scalePool deleteStack cluster).1 ∧
    (Reconcile listStacks scalePool deleteStack cluster).2 = Except.ok () := by
  have hname := nodePoolStackToNodePool_no_name_tag stack hnotag
  have horph : stack ∈ orphanedNodePoolStacks stackList cluster.NodePools := by
    rw [mem_orphanedNodePoolStacks]
    refine ⟨hmem, ?_⟩
    rw [hname]
    intro hin
    rcases List.mem_map.mp hin with ⟨p, hp, hpe⟩
    exact hnames p hp hpe
  have hR : Reconcile listStacks scalePool deleteStack cluster =
      reconcileOrphans scalePool deleteStack
        (orphanedNodePoolStacks stackList cluster.NodePools) := by
    simp only [Reconcile, hls]
  have hall := reconcileOrphans_all_ok scalePool deleteStack
    (orphanedNodePoolStacks stackList cluster.NodePools) hok
  rw [hR]
  exact ⟨hname, horph, (hall.1 stack horph).1, (hall.1 stack horph).2, hall.2⟩

/-- C2 fails on the code: `provisionNodePool` mutates the caller's `values`
map in place — `Provision` passes the same base map to every per-pool
goroutine, so the write is visible to the caller and to sibling tasks.
Concretely, starting from the empty base map with a pool using the `None`
discount strategy, the caller's map afterwards contains `spot_price`; it is
not left unchanged. -/
theorem provision_values_shared_mutation :
    (provisionNodePoolValues (fun _ => none) "eu-central-1"
        ⟨"pool-1", "prof", "m5.large", discountStrategyNone⟩ []).1 =
      [("spot_price", "")] ∧
    (provisionNodePoolValues (fun _ => none) "eu-central-1"
        ⟨"pool-1", "prof", "m5.large", discountStrategyNone⟩ []).1 ≠ ([] : Values) := by
  refine ⟨rfl, ?_⟩
  decide

/-- The two discount-strategy constants are distinct strings. -/
theorem spotMaxPrice_ne_none : discountStrategySpotMaxPrice ≠ discountStrategyNone := by
  decide

/-- C5: pricing resolution in `provisionNodePool`.  For strategy `None`
the call succeeds with `spot_price` set to the empty string; for
`SpotMaxPrice` with a known instance type and a regional price the call
succeeds with `spot_price` set to that on-demand price; an unknown
instance type, a missing regional price, or any other strategy yields the
corresponding configuration error. -/
theorem pricing_resolution (instanceInfo : String → Option Values) (region : String)
    (nodePool : NodePool) (values : Values) :
    (nodePool.DiscountStrategy = discountStrategyNone →
      (provisionNodePoolValues instanceInfo region nodePool values).2 = Except.ok () ∧
      Values.get (provisionNodePoolValues instanceInfo region nodePool values).1
        "spot_price" = some "") ∧
    (∀ pricing price, nodePool.DiscountStrategy = discountStrategySpotMaxPrice →
      instanceInfo nodePool.InstanceType = some pricing →
      Values.get pricing region = some price →
      (provisionNodePoolValues instanceInfo region nodePool values).2 = Except.ok () ∧
      Values.get (provisionNodePoolValues instanceInfo region nodePool values).1
        "spot_price" = some price) ∧
    (nodePool.DiscountStrategy = discountStrategySpotMaxPrice →
      instanceInfo nodePool.InstanceType = none →
      (provisionNodePoolValues instanceInfo region nodePool values).2 =
        Except.error ("unknown instance type " ++ nodePool.InstanceType)) ∧
    (∀ pricing, nodePool.DiscountStrategy = discountStrategySpotMaxPrice →
      instanceInfo nodePool.InstanceType = some pricing →
      Values.get pricing region = none →
      (provisionNodePoolValues instanceInfo region nodePool values).2 =
        Except.error ("no price data for region " ++ region ++ ", instance type " ++
          nodePool.InstanceType)) ∧
    (nodePool.DiscountStrategy ≠ discountStrategyNone →
      nodePool.DiscountStrategy ≠ discountStrategySpotMaxPrice →
      (provisionNodePoolValues instanceInfo region nodePool values).2 =
        Except.error ("unsupported node pool discount_strategy " ++
          nodePool.DiscountStrategy)) := by
  refine ⟨?_, ?_, ?_, ?_, ?_⟩
  · intro h
    simp [provisionNodePoolValues, h, Values.insert, Values.get]
  · intro pricing price h hinfo hprice
    have hne : nodePool.DiscountStrategy ≠ discountStrategyNone := by
      rw [h]; decide
    simp [provisionNodePoolValues, h, hne, hinfo, hprice, Values.insert, Values.get,
      spotMaxPrice_ne_none]
  · intro h hinfo
    have hne : nodePool.DiscountStrategy ≠ discountStrategyNone := by
      rw [h]; decide
    simp [provisionNodePoolValues, h, hne, hinfo, spotMaxPrice_ne_none]
  · intro pricing h hinfo hprice
    have hne : nodePool.DiscountStrategy ≠ discountStrategyNone := by
      rw [h]; decide
    simp [provisionNodePoolValues, h, hne, hinfo, hprice, spotMaxPrice_ne_none]
  · intro h1 h2
    simp [provisionNodePoolValues, h1, h2]

/-- Witness for `pricing_resolution` at a concrete pool, table and region. -/
theorem pricing_resolution_witness :
    ((provisionNodePoolValues examplePricingTable "eu-central-1"
        ⟨"p1", "prof", "m5.large", discountStrategySpotMaxPrice⟩ []).2 = Except.ok () ∧
      Values.get (provisionNodePoolValues examplePricingTable "eu-central-1"
        ⟨"p1", "prof", "m5.large", discountStrategySpotMaxPrice⟩ []).1 "spot_price" =
        some "0.115") ∧
    Values.get (provisionNodePoolValues examplePricingTable "eu-central-1"
        ⟨"p2", "prof", "m5.large", discountStrategyNone⟩ []).1 "spot_price" = some "" ∧
    (provisionNodePoolValues examplePricingTable "eu-central-1"
        ⟨"p3", "prof", "m0.bogus", discountStrategySpotMaxPrice⟩ []).2 =
      Except.error "unknown instance type m0.bogus" := by
  refine ⟨?_, ?_, ?_⟩
  · exact (pricing_resolution examplePricingTable "eu-central-1"
      ⟨"p1", "prof", "m5.large", discountStrategySpotMaxPrice⟩ []).2.1
      [("eu-central-1", "0.115")] "0.115" rfl (by decide) (by decide)
  · exact ((pricing_resolution examplePricingTable "eu-central-1"
      ⟨"p2", "prof", "m5.large", discountStrategyNone⟩ []).1 rfl).2
  · exact (pricing_resolution examplePricingTable "eu-central-1"
      ⟨"p3", "prof", "m0.bogus", discountStrategySpotMaxPrice⟩ []).2.2.1
      rfl (by decide)

/-- Decomposition of a `stringsJoin` around any one of its elements. -/
theorem stringsJoin_decomp (sep m : String) (l : List String) (hm : m ∈ l) :
    ∃ a b, stringsJoin sep l = a ++ m ++ b := by
  induction l with
  | nil => cases hm
  | cons x rest ih =>
    rcases List.mem_cons.mp hm with rfl | hrest
    · cases rest with
      | nil =>
        refine ⟨"", "", ?_⟩
        rw [stringsJoin, String.empty_append, String.append_empty]
      | cons y ys =>
        refine ⟨"", sep ++ stringsJoin sep (y :: ys), ?_⟩
        rw [stringsJoin, String.empty_append, String.append_assoc]
    · cases rest with
      | nil => cases hrest
      | cons y ys =>
        rcases ih hrest with ⟨a, b, hab⟩
        refine ⟨x ++ sep ++ a, b, ?_⟩
        rw [stringsJoin, hab]
        simp [String.append_assoc]

/-- C4: `Provision` collects exactly one result per launched task (the
arrival order is an arbitrary permutation of the target pools).  If every
pool's independent attempt succeeds, it returns success; if a pool's
attempt fails — no matter how the siblings fare — it returns a single
aggregate error whose joined text contains that pool's name and reason. -/
theorem provision_failure_isolation (outcome : NodePool → Option String)
    (pools arrival : List NodePool) (hperm : arrival.Perm pools) :
    ((∀ p ∈ pools, outcome p = none) → Provision outcome arrival = Except.ok ()) ∧
    (∀ p ∈ pools, ∀ reason, outcome p = some reason →
      ∃ errText a b, Provision outcome arrival = Except.error errText ∧
        errText =
          a ++ ("failed to provision node pool " ++ p.Name ++ ": " ++ reason) ++ b) := by
  constructor
  · intro hall
    have hnil : arrival.filterMap (fun p => provisionTaskError p (outcome p)) = [] := by
      rw [List.filterMap_eq_nil_iff]
      intro p hp
      rw [hall p (hperm.mem_iff.mp hp)]
      rfl
    unfold Provision
    rw [hnil]
  · intro p hp reason hreason
    have hpa : p ∈ arrival := hperm.mem_iff.mpr hp
    have hmsg : ("failed to provision node pool " ++ p.Name ++ ": " ++ reason) ∈
        arrival.filterMap (fun q => provisionTaskError q (outcome q)) := by
      rw [List.mem_filterMap]
      refine ⟨p, hpa, ?_⟩
      rw [hreason]
      rfl
    cases hE : arrival.filterMap (fun q => provisionTaskError q (outcome q)) with
    | nil => rw [hE] at hmsg; cases hmsg
    | cons e rest =>
      rw [hE] at hmsg
      rcases stringsJoin_decomp ", " _ (e :: rest) hmsg with ⟨a, b, hab⟩
      refine ⟨stringsJoin ", " (e :: rest), a, b, ?_, hab⟩
      unfold Provision
      rw [hE]

/-- Witness for `provision_failure_isolation`: with three pools of which
`pool-2` fails and results arriving out of launch order, the aggregate
error text contains the failing pool's name and reason. -/
theorem provision_failure_isolation_witness :
    ∃ errText a b,
      Provision exampleOutcome
          [⟨"pool-2", "worker", "m0.bogus", "spot_max_price"⟩,
           ⟨"pool-3", "worker", "m5.large", "none"⟩,
           ⟨"pool-1", "worker", "m5.large", "none"⟩] = Except.error errText ∧
      errText =
        a ++ ("failed to provision node pool " ++ "pool-2" ++ ": " ++
          "unknown instance type m0.bogus") ++ b := by
  exact (provision_failure_isolation exampleOutcome examplePools
      [⟨"pool-2", "worker", "m0.bogus", "spot_max_price"⟩,
       ⟨"pool-3", "worker", "m5.large", "none"⟩,
       ⟨"pool-1", "worker", "m5.large", "none"⟩] (by decide)).2
    ⟨"pool-2", "worker", "m0.bogus", "spot_max_price"⟩ (by decide)
    "unknown instance type m0.bogus" (by decide)

/-- Witness for `reconcile_drain_before_delete`: two live stacks, one
retained, one orphaned with a failing drain — the orphan's stack is not
deleted and the drain error is returned. -/
theorem reconcile_drain_before_delete_witness :
    ¬ Event.deleteStackEv exampleDeadStack ∈
        (Reconcile (exampleListStacks [exampleKeepStack, exampleDeadStack])
          exampleScalePoolFailDead exampleDeleteStackOk exampleCluster).1 ∧
    (Reconcile (exampleListStacks [exampleKeepStack, exampleDeadStack])
        exampleScalePoolFailDead exampleDeleteStackOk exampleCluster).2 =
      Except.error "drain failed" := by
  have h := reconcile_drain_before_delete
    (exampleListStacks [exampleKeepStack, exampleDeadStack])
    exampleScalePoolFailDead exampleDeleteStackOk exampleCluster
    [exampleKeepStack, exampleDeadStack] [] [] exampleDeadStack "drain failed"
    rfl (by decide) (by simp) rfl
  exact ⟨h.2.1, h.2.2⟩

/-- Witness for `unnamed_stack_orphaned_and_decommissioned`: a stack with
only a profile tag decodes to the empty name, is orphaned, and is both
drained and deleted in a successful pass. -/
theorem unnamed_stack_witness :
    (nodePoolStackToNodePool exampleUnnamedStack).Name = "" ∧
    Event.scalePoolEv exampleUnnamedStack ∈
      (Reconcile (exampleListStacks [exampleKeepStack, exampleUnnamedStack])
        exampleScalePoolOk exampleDeleteStackOk exampleCluster).1 ∧
    Event.deleteStackEv exampleUnnamedStack ∈
      (Reconcile (exampleListStacks [exampleKeepStack, exampleUnnamedStack])
        exampleScalePoolOk exampleDeleteStackOk exampleCluster).1 := by
  have h := unnamed_stack_orphaned_and_decommissioned
    (exampleListStacks [exampleKeepStack, exampleUnnamedStack])
    exampleScalePoolOk exampleDeleteStackOk exampleCluster
    [exampleKeepStack, exampleUnnamedStack] exampleUnnamedStack
    (by decide) (by decide) rfl (by decide)
    (fun t _ => ⟨rfl, rfl⟩)
  exact ⟨h.1, h.2.2.1, h.2.2.2.1⟩

/-- A template whose node list references a key absent from the context
never renders: execution fails with an error. -/
theorem executeTemplate_missing_key (nodes : List TemplateNode) (data : Values)
    (k : String) (href : TemplateNode.keyRef k ∈ nodes)
    (hmiss : Values.get data k = none) :
    ∃ e, executeTemplate nodes data = Except.error e := by
  induction nodes with
  | nil => cases href
  | cons n rest ih =>
    cases n with
    | lit s =>
      have hr : TemplateNode.keyRef k ∈ rest := by
        rcases List.mem_cons.mp href with h | h
        · cases h
        · exact h
      rcases ih hr with ⟨e, he⟩
      exact ⟨e, by simp [executeTemplate, he, Except.map]⟩
    | keyRef k2 =>
      cases hk2 : Values.get data k2 with
      | none => exact ⟨"map has no entry for key " ++ k2, by simp [executeTemplate, hk2]⟩
      | some v =>
        have hr : TemplateNode.keyRef k ∈ rest := by
          rcases List.mem_cons.mp href with h | h
          · injection h with h3
            rw [h3] at hmiss
            rw [hmiss] at hk2
            cases hk2
          · exact h
        rcases ih hr with ⟨e, he⟩
        exact ⟨e, by simp [executeTemplate, hk2, he, Except.map]⟩

/-- C7: rendering a template that references a key absent from the provided
context returns an error and never succeeds — in particular it never
produces output with an empty-string substitution for the missing key. -/
theorem strict_template_keys (fs : FileSystem)
    (parse : String → Except String (List TemplateNode)) (templateFile : String)
    (data : Values) (content : String) (nodes : List TemplateNode) (k : String)
    (hread : fs.read templateFile = some content)
    (hparse : parse content = Except.ok nodes)
    (href : TemplateNode.keyRef k ∈ nodes)
    (hmiss : Values.get data k = none) :
    ∃ e, renderTemplate fs parse templateFile data = Except.error e ∧
      ∀ out, ¬ renderTemplate fs parse templateFile data = Except.ok out := by
  rcases executeTemplate_missing_key nodes data k href hmiss with ⟨e, he⟩
  have hrender : renderTemplate fs parse templateFile data = Except.error e := by
    simp only [renderTemplate, hread, hparse]
    exact he
  refine ⟨e, hrender, ?_⟩
  intro out hok
  rw [hrender] at hok
  cases hok

/-- Witness for `strict_template_keys`: a one-node template referencing
`spot_price` against a context that lacks it. -/
theorem strict_template_keys_witness :
    ∃ e, renderTemplate
        ⟨fun _ => some true, fun _ => some "body"⟩
        (fun _ => Except.ok [TemplateNode.keyRef "spot_price"])
        "userdata.clc.yaml" [("cluster_id", "c-1")] = Except.error e ∧
      ∀ out, ¬ renderTemplate
        ⟨fun _ => some true, fun _ => some "body"⟩
        (fun _ => Except.ok [TemplateNode.keyRef "spot_price"])
        "userdata.clc.yaml" [("cluster_id", "c-1")] = Except.ok out := by
  exact strict_template_keys
    ⟨fun _ => some true, fun _ => some "body"⟩
    (fun _ => Except.ok [TemplateNode.keyRef "spot_price"])
    "userdata.clc.yaml" [("cluster_id", "c-1")] "body"
    [TemplateNode.keyRef "spot_price"] "spot_price" rfl rfl (by decide) (by decide)

/-- Filtering for a key immediately after filtering it away yields nothing. -/
theorem filter_ne_filter_eq (l : List ((String × String) × List Nat))
    (key : String × String) :
    (l.filter (fun o => o.1 ≠ key)).filter (fun o => o.1 = key) = [] := by
  induction l with
  | nil => rfl
  | cons x xs ih =>
    by_cases hx : x.1 = key
    · simp [List.filter, hx, ih]
    · simp [List.filter, hx, ih]

/-- C8: publishing a payload is deterministic and idempotent.  Every
publish of payload `X` to bucket `B` returns the URI
`s3://B/<hex-sha512-of-X>.userdata`; publishing the same bytes twice
returns the same URI and leaves exactly one logical object under that
key, with the model's re-upload succeeding by overwrite. -/
theorem upload_userdata_idempotent (sha512hex : List Nat → String)
    (userData : List Nat) (bucketName : String) (s : S3State) :
    (uploadUserDataToS3 sha512hex userData bucketName s).2 =
      "s3://" ++ bucketName ++ "/" ++ sha512hex userData ++ ".userdata" ∧
    (uploadUserDataToS3 sha512hex userData bucketName
        (uploadUserDataToS3 sha512hex userData bucketName s).1).2 =
      (uploadUserDataToS3 sha512hex userData bucketName s).2 ∧
    ((uploadUserDataToS3 sha512hex userData bucketName
          (uploadUserDataToS3 sha512hex userData bucketName s).1).1.objects.filter
        (fun o => o.1 = (bucketName, sha512hex userData ++ ".userdata"))).length = 1 := by
  refine ⟨?_, rfl, ?_⟩
  · simp [uploadUserDataToS3, String.append_assoc]
  · simp [uploadUserDataToS3, s3Upload, createS3Bucket, filter_ne_filter_eq]

/-- C9: when the profile directory does not exist under the configured base
directory (`os.Stat` reports it missing), stack-template generation fails,
and the error message contains the missing profile's name. -/
theorem missing_profile_dir_error (fs : FileSystem)
    (prepareUserData : String → Except String String)
    (renderStackTemplate : String → String → Except String String)
    (cfgBaseDir : String) (nodePool : NodePool)
    (hstat : fs.stat (pathJoin cfgBaseDir nodePool.Profile) = none) :
    ∃ e a b, generateNodePoolStackTemplate fs prepareUserData renderStackTemplate
        cfgBaseDir nodePool = Except.error e ∧ e = a ++ nodePool.Profile ++ b := by
  have hgen : generateNodePoolStackTemplate fs prepareUserData renderStackTemplate
      cfgBaseDir nodePool =
      Except.error ("stat " ++ pathJoin cfgBaseDir nodePool.Profile ++
        ": no such file or directory") := by
    simp only [generateNodePoolStackTemplate, hstat]
  by_cases h1 : cfgBaseDir = ""
  · refine ⟨_, "stat ", ": no such file or directory", hgen, ?_⟩
    simp [pathJoin, h1]
  · by_cases h2 : nodePool.Profile = ""
    · refine ⟨_, "stat " ++ cfgBaseDir, ": no such file or directory", hgen, ?_⟩
      simp [pathJoin, h1, h2, String.append_empty]
    · refine ⟨_, "stat " ++ cfgBaseDir ++ "/", ": no such file or directory", hgen, ?_⟩
      simp [pathJoin, h1, h2, String.append_assoc]

/-- Witness for `missing_profile_dir_error`: a filesystem with no entries
and a pool whose profile is `worker-profile`. -/
theorem missing_profile_dir_error_witness :
    ∃ e a b, generateNodePoolStackTemplate
        ⟨fun _ => none, fun _ => none⟩
        (fun _ => Except.ok "") (fun _ _ => Except.ok "")
        "/cfg" ⟨"p1", "worker-profile", "", ""⟩ = Except.error e ∧
      e = a ++ "worker-profile" ++ b := by
  exact missing_profile_dir_error
    ⟨fun _ => none, fun _ => none⟩
    (fun _ => Except.ok "") (fun _ _ => Except.ok "")
    "/cfg" ⟨"p1", "worker-profile", "", ""⟩ rfl

end CLM
